import Mathlib

/-!
Shallow embedding of run.py (BIBSnet nnU-Net_predict wrapper).

The embedding models the decision logic of run.py: file systems are lists of
basenames, external tool invocations are recorded as traces of commands, and
fatal aborts via sys.exit or argparse errors become Except.error values
carrying the exact diagnostic strings the source builds.
-/

namespace BIBSnet

/-- Pipeline stages at the granularity of the control-flow description:
CLI validation (get_cli_args / validate_cli_args), the preBIBSnet steps
(averaging, cropping, registration), external inference (run_nnUNet_predict),
and the postBIBSnet steps (left/right disambiguation, chirality correction,
native-space reversion, mask derivation, derivatives assembly). -/
inductive Stage where
  | cliValidation
  | averaging
  | cropping
  | registrationDual
  | registrationSingle
  | inference
  | leftRight
  | chirality
  | nativeReversion
  | maskDerivation
  | derivatives
  deriving DecidableEq, Repr

/-- Validated command-line arguments of run.py (get_cli_args): input directory,
output directory, path to the nnUNet executable, task ID and model name. -/
structure CliArgs where
  input : String
  output : String
  nnUNet : String
  task : Nat
  model : String
  deriving DecidableEq, Repr

/-- Suffix test on strings, computed on character lists. -/
def strEnds (s suf : String) : Bool :=
  suf.toList.isSuffixOf s.toList

/-- Prefix test on strings, computed on character lists. -/
def strStarts (s pre : String) : Bool :=
  pre.toList.isPrefixOf s.toList

/-- Removal of the last n characters of a string. -/
def strDropRight (s : String) (n : Nat) : String :=
  String.mk (s.toList.take (s.toList.length - n))

/-- Basename test performed by the Python call glob(output-dir joined with the
pattern star dot nii dot gz) in run_nnUNet_predict, line 169: a name matches
when it ends in the .nii.gz suffix; the glob star does not match a leading
dot (hidden files). Names here are basenames, so slashes do not occur. -/
def isNiiGz (name : String) : Bool :=
  (!strStarts name ".") && strEnds name ".nii.gz"

/-- Diagnostic built by run_nnUNet_predict, lines 171 to 175, when no output
segmentation file exists: the sys.exit message interpolates the output
directory and then the input directory into a fixed format string. -/
def nnUNet_error_msg (outputDir inputDir : String) : String :=
  "Error: Output segmentation file not created at the path below during nnUNet_predict run.\n"
    ++ outputDir
    ++ "\n\nFor your input files at the path below, check their filenames and visually inspect them if needed.\n"
    ++ inputDir ++ "\n\n"

/-- run_nnUNet_predict, lines 158 to 175. The source calls subprocess.call and
discards its return value (the exit status of the external inference process,
modelled by exitCode, is never inspected). Afterwards it errors out exactly
when no file in the output directory matches the .nii.gz glob; outputFiles is
the list of basenames present in the output directory after the call. -/
def run_nnUNet_predict (outputFiles : List String) (exitCode : Int)
    (args : CliArgs) : Except String Unit :=
  if (outputFiles.filter isNiiGz).isEmpty then
    Except.error (nnUNet_error_msg args.output args.input)
  else
    Except.ok ()

/-- Stage trace of get_cli_args (lines 264 to 303): argument parsing and
validation, no external tool runs here. -/
def get_cli_args_stages : List Stage := [Stage.cliValidation]

/-- Stage trace of run_nnUNet_predict: the single external inference call. -/
def run_nnUNet_predict_stages : List Stage := [Stage.inference]

/-- Stage trace of run_preBIBSnet (lines 32 to 155): averaging
(create_anatomical_averages), cropping (crop_image per modality), then either
the dual-modality ACPC plus non-ACPC registration path (lines 62 to 84) or the
single-modality direct path (lines 87 to 130), selected by has_T1w and
has_T2w. -/
def preBIBSnet_stages (hasT1w hasT2w : Bool) : List Stage :=
  [Stage.averaging, Stage.cropping,
   if hasT1w && hasT2w then Stage.registrationDual else Stage.registrationSingle]

/-- Stage trace of run_postBIBSnet (lines 177 to 261): left/right registration
and mask dilation, chirality correction, then per required modality the
native-space reversion, mask derivation and derivatives copies; nTs is the
number of modalities iterated by only_Ts_needed_for_bibsnet_model. -/
def postBIBSnet_stages (nTs : Nat) : List Stage :=
  [Stage.leftRight, Stage.chirality]
    ++ (List.replicate nTs
        [Stage.nativeReversion, Stage.maskDerivation, Stage.derivatives]).flatten

/-- Stage trace of main (lines 21 to 29): get_cli_args, then
run_nnUNet_predict, then exit_with_time_info. main calls no other function of
the file; in particular it never calls run_preBIBSnet or run_postBIBSnet. -/
def main_stages : List Stage := get_cli_args_stages ++ run_nnUNet_predict_stages

/-- Execution of main (lines 21 to 29) on validated arguments: the stages it
runs and the final result. run_nnUNet_predict either returns or terminates the
process via sys.exit; either way nothing further in main touches pipeline
stages. -/
def main_run (outputFiles : List String) (exitCode : Int) (args : CliArgs) :
    List Stage × Except String Unit :=
  match run_nnUNet_predict outputFiles exitCode args with
  | Except.error e => (main_stages, Except.error e)
  | Except.ok _ => (main_stages, Except.ok ())

/-- Reference-modality choice for left/right registration in run_postBIBSnet,
lines 196 to 203: with both T1w and T2w, T2 below 22 months of age and T1
otherwise; T1 for T1-only; T2 for T2-only (the final else). -/
def choose_lr_reference (has_T1w has_T2w : Bool) (age_months : Int) : Nat :=
  if has_T1w && has_T2w then
    (if age_months < 22 then 2 else 1)
  else if has_T1w then 1
  else 2

/-- External FSL invocations issued through run_FSL_sh_script, recorded with
their arguments in source order. concatXfm records the two matrix paths given
after the -concat flag in the order the source lists them (firstArg then
secondArg); applywarp records input volume, reference volume, premat matrix
and output volume. -/
inductive FslCmd where
  | flirt (inp ref iso init omat : String)
  | invertXfm (inp omat : String)
  | concatXfm (omat firstArg secondArg : String)
  | applywarp (inp ref premat out : String)
  deriving DecidableEq, Repr

/-- Discriminator for the convert_xfm concatenation command. -/
def isConcatXfm : FslCmd → Bool
  | FslCmd.concatXfm _ _ _ => true
  | _ => false

/-- Discriminator for the applywarp resampling command. -/
def isApplywarp : FslCmd → Bool
  | FslCmd.applywarp _ _ _ _ => true
  | _ => false

/-- Trace of external FSL calls made by the single-modality branch of
run_preBIBSnet, lines 98 to 128, with the involved file paths as parameters:
cropped is the cropped volume, refImg the modality template, idMat the
identity matrix, resolution the isotropic resolution, crop2full the matrix
recorded by cropping, avg the averaged uncropped volume, crop2BIBS_mat the
flirt output matrix, full2crop the inverted crop matrix, out_mat the
concatenated matrix and out_img the final template-space volume. The source
issues, in order: flirt estimating crop2BIBS_mat; convert_xfm -inverse turning
crop2full into full2crop; convert_xfm -concat with arguments full2crop then
crop2BIBS_mat writing out_mat; applywarp resampling avg with premat out_mat
into out_img. -/
def preBIBSnet_single_trace (cropped refImg iso idMat crop2full avg
    crop2BIBS_mat full2crop out_mat out_img : String) : List FslCmd :=
  [FslCmd.flirt cropped refImg iso idMat crop2BIBS_mat,
   FslCmd.invertXfm crop2full full2crop,
   FslCmd.concatXfm out_mat full2crop crop2BIBS_mat,
   FslCmd.applywarp avg refImg out_mat out_img]

/-- Outcome of the dataset-description copy step. -/
inductive CopyOutcome where
  | copied
  | skipped
  deriving DecidableEq, Repr

/-- Message of the exception raised by os.remove on a missing path. -/
def os_remove_missing_error : String :=
  "FileNotFoundError: no such file or directory"

/-- Dataset-description copy in run_postBIBSnet, lines 248 to 253: when the
overwrite flag is set the source calls os.remove on the destination
unconditionally (raising FileNotFoundError when the destination does not
exist); then it copies the file only when the destination does not exist.
destExists says whether the destination file existed beforehand. -/
def copy_dataset_description (overwrite destExists : Bool) :
    Except String CopyOutcome :=
  if overwrite then
    if destExists then Except.ok CopyOutcome.copied
    else Except.error os_remove_missing_error
  else
    if destExists then Except.ok CopyOutcome.skipped
    else Except.ok CopyOutcome.copied

/-- Tail of run_postBIBSnet, lines 247 to 259: the dataset-description copy
followed by the conditional working-directory removal. The removal (lines 254
to 259) runs shutil.rmtree on the working directory exactly when its path
equals os.path.join of slash, tmp, cabinet, which is the string /tmp/cabinet.
The returned list records the paths removed by rmtree. -/
def run_postBIBSnet_tail (overwrite destExists : Bool) (work_dir : String) :
    Except String (CopyOutcome × List String) := do
  let oc ← copy_dataset_description overwrite destExists
  let removed := if work_dir = "/tmp/cabinet" then [work_dir] else []
  pure (oc, removed)

/-- Basename test for the glob pattern used by validate_cli_args, line 337:
star underscore zero zero zero questionmark dot nii dot gz. A basename matches
when it does not start with a dot (glob hides dotfiles), ends in .nii.gz, and
the character before that suffix is preceded by the literal text underscore
zero zero zero. The questionmark matches exactly one character. -/
def matches_two_slot (name : String) : Bool :=
  (!strStarts name ".") && strEnds name ".nii.gz"
    && strEnds (strDropRight (strDropRight name 7) 1) "_000"

/-- Test fnmatch applies in validate_cli_args, line 349, comparing the first
globbed path against the slot-0 pattern. Both the path and the pattern share
the literal input-directory prefix and fnmatch's star matches any characters,
so on basenames the test reduces to the suffix check for _0000.nii.gz. -/
def fnmatch_slot0 (name : String) : Bool :=
  strEnds name "_0000.nii.gz"

/-- Expected glob path string built by validate_cli_args, line 337, for a
given slot digit: the input directory joined with the two-slot pattern with
the slot digit substituted. -/
def img_glob_path (inputDir slot : String) : String :=
  inputDir ++ "/*_000" ++ slot ++ ".nii.gz"

/-- Error message of validate_cli_args, lines 334 to 336, naming the task and
the newline-joined expected glob path(s). -/
def missing_file_err_msg (task : Nat) (paths : String) : String :=
  "BIBSnet task " ++ toString task
    ++ " requires image file(s) at the path(s) below, and at least 1 is missing. Either save the image file(s) there or try a different task.\n"
    ++ paths

/-- Input-file validation of validate_cli_args, lines 333 to 354. needsT1w and
needsT2w come from the models.csv row of the task; dirFiles is the list of
basenames in the input directory in enumeration order. The source counts the
expected modalities, globs the two-slot pattern, and errors when a task
expecting two modalities finds fewer than two matches (naming both slot
patterns), or a task expecting one modality finds no match or a first match
that fails the slot-0 fnmatch test (naming the slot-0 pattern). -/
def validate_cli_args (needsT1w needsT2w : Bool) (task : Nat)
    (inputDir : String) (dirFiles : List String) : Except String Unit :=
  let how_many_T_expected :=
    (if needsT1w then 1 else 0) + (if needsT2w then 1 else 0)
  let img_files := dirFiles.filter matches_two_slot
  if how_many_T_expected = 2 ∧ img_files.length < 2 then
    Except.error (missing_file_err_msg task
      (img_glob_path inputDir "0" ++ "\n" ++ img_glob_path inputDir "1"))
  else if how_many_T_expected = 1 ∧
      (img_files.length < 1 ∨ fnmatch_slot0 (img_files.headD "") = false) then
    Except.error (missing_file_err_msg task (img_glob_path inputDir "0"))
  else
    Except.ok ()

/-- ASCII digit test. -/
def isAsciiDigit (c : Char) : Bool :=
  ('0' ≤ c) && (c ≤ '9')

/-- Value of a nonempty all-digit character list, most significant first. -/
def digitsToNat (l : List Char) : Nat :=
  l.foldl (fun acc c => 10 * acc + (c.toNat - 48)) 0

/-- Whitespace characters stripped by the Python built-in int: space, tab,
newline, carriage return, vertical tab and form feed. -/
def isSpaceChar (c : Char) : Bool :=
  (c == ' ') || (c == '\t') || (c == '\n') || (c == '\r')
    || (c == Char.ofNat 11) || (c == Char.ofNat 12)

/-- Removal of leading and trailing whitespace from a character list. -/
def trimChars (l : List Char) : List Char :=
  ((l.dropWhile isSpaceChar).reverse.dropWhile isSpaceChar).reverse

/-- Model of the Python built-in int applied to a string, as used by
valid_whole_number: surrounding whitespace is stripped, an optional single
plus or minus sign is allowed, and the remainder must be a nonempty run of
ASCII decimal digits; otherwise int raises ValueError, modelled as none.
Underscore digit grouping and non-ASCII digits are outside this model. -/
def pyInt (s : String) : Option Int :=
  match trimChars s.toList with
  | '+' :: rest =>
      if rest ≠ [] ∧ rest.all isAsciiDigit
      then some (Int.ofNat (digitsToNat rest)) else none
  | '-' :: rest =>
      if rest ≠ [] ∧ rest.all isAsciiDigit
      then some (-(Int.ofNat (digitsToNat rest))) else none
  | l =>
      if l ≠ [] ∧ l.all isAsciiDigit
      then some (Int.ofNat (digitsToNat l)) else none

/-- valid_whole_number, lines 388 to 395, through validate, lines 398 to 416:
the is_real check asserts int of the input is at least 0, and make_valid
returns int of the input; a ValueError from int or a failed assertion is
caught and re-raised as argparse.ArgumentTypeError with the message formatting
the offending input. -/
def valid_whole_number (to_validate : String) : Except String Int :=
  match pyInt to_validate with
  | some n =>
      if n ≥ 0 then Except.ok n
      else Except.error (to_validate ++ " is not a positive integer")
  | none => Except.error (to_validate ++ " is not a positive integer")

/-- Helper: concatenation of strings is associative. -/
theorem strAppend_assoc (a b c : String) : a ++ b ++ c = a ++ (b ++ c) :=
  String.append_assoc a b c

/-- C1: in the single-modality registration path, the final transform is built
by one convert_xfm concatenation whose arguments are the full-to-crop matrix
first and the crop-to-template matrix second, and exactly one applywarp
resample is issued, applying that concatenated matrix to the averaged
uncropped volume to produce the template-space output; the concatenation
precedes the resample in the call trace. -/
theorem C1_single_modality_concat_order_single_resample
    (cropped refImg iso idMat crop2full avg crop2BIBS_mat full2crop
     out_mat out_img : String) :
    (preBIBSnet_single_trace cropped refImg iso idMat crop2full avg
        crop2BIBS_mat full2crop out_mat out_img).filter isConcatXfm
      = [FslCmd.concatXfm out_mat full2crop crop2BIBS_mat]
    ∧ (preBIBSnet_single_trace cropped refImg iso idMat crop2full avg
        crop2BIBS_mat full2crop out_mat out_img).filter isApplywarp
      = [FslCmd.applywarp avg refImg out_mat out_img]
    ∧ ∃ l1 l2 l3, preBIBSnet_single_trace cropped refImg iso idMat crop2full
        avg crop2BIBS_mat full2crop out_mat out_img
      = l1 ++ [FslCmd.concatXfm out_mat full2crop crop2BIBS_mat]
          ++ l2 ++ [FslCmd.applywarp avg refImg out_mat out_img] ++ l3 := by
  refine ⟨rfl, rfl,
    [FslCmd.flirt cropped refImg iso idMat crop2BIBS_mat,
     FslCmd.invertXfm crop2full full2crop], [], [], rfl⟩

/-- C2: the left/right reference modality policy: with both modalities, T2
exactly below 22 months and T1 from 22 months on; T1 for T1-only; T2 for
T2-only; in particular age 18 with both selects T2 and age 30 selects T1. -/
theorem C2_left_right_reference_policy :
    (∀ age : Int, choose_lr_reference true true age
        = if age < 22 then 2 else 1)
    ∧ (∀ age : Int, choose_lr_reference true false age = 1)
    ∧ (∀ age : Int, choose_lr_reference false true age = 2)
    ∧ choose_lr_reference true true 18 = 2
    ∧ choose_lr_reference true true 30 = 1 :=
  ⟨fun _ => rfl, fun _ => rfl, fun _ => rfl, by decide, by decide⟩

/-- C4 counterexample: an inference invocation that exits with status 1 while
a segmentation file is present in the output directory is not treated as an
error; run_nnUNet_predict returns successfully, so a non-zero exit status is
not fatal. -/
theorem C4_nonzero_exit_not_fatal_counterexample :
    run_nnUNet_predict ["seg.nii.gz"] 1
      ⟨"/in", "/out", "nnUNet_predict", 512, "3d_fullres"⟩ = Except.ok () := by
  rfl

/-- C4 amended: the exit status of the inference process is ignored; the run
fails after inference exactly when no file matching the .nii.gz pattern exists
in the output directory, and the outcome is unchanged under any exit code. -/
theorem C4_failure_iff_no_output_file
    (outputFiles : List String) (exitCode : Int) (args : CliArgs) :
    (run_nnUNet_predict outputFiles exitCode args = Except.ok ()
      ↔ (outputFiles.filter isNiiGz) ≠ [])
    ∧ run_nnUNet_predict outputFiles exitCode args
      = run_nnUNet_predict outputFiles 0 args := by
  constructor
  · unfold run_nnUNet_predict
    rcases h : (outputFiles.filter isNiiGz) with _ | ⟨a, l⟩ <;>
      simp [List.isEmpty, h]
  · rfl

/-- C3: when no file matching the .nii.gz pattern exists in the output
directory after the inference invocation, main aborts at the inference step
with the diagnostic that names the expected output directory and the original
input directory, and no downstream pipeline stage (left/right disambiguation,
chirality correction, native reversion, mask derivation, derivatives) is among
the stages main executes. -/
theorem C3_abort_on_missing_inference_output
    (outputFiles : List String) (exitCode : Int) (args : CliArgs)
    (h : outputFiles.filter isNiiGz = []) :
    main_run outputFiles exitCode args
      = ([Stage.cliValidation, Stage.inference],
         Except.error (nnUNet_error_msg args.output args.input))
    ∧ (∃ a b, nnUNet_error_msg args.output args.input = a ++ args.output ++ b)
    ∧ (∃ a b, nnUNet_error_msg args.output args.input = a ++ args.input ++ b)
    ∧ Stage.leftRight ∉ (main_run outputFiles exitCode args).1
    ∧ Stage.chirality ∉ (main_run outputFiles exitCode args).1
    ∧ Stage.nativeReversion ∉ (main_run outputFiles exitCode args).1
    ∧ Stage.maskDerivation ∉ (main_run outputFiles exitCode args).1
    ∧ Stage.derivatives ∉ (main_run outputFiles exitCode args).1 := by
  have hrun : run_nnUNet_predict outputFiles exitCode args
      = Except.error (nnUNet_error_msg args.output args.input) := by
    unfold run_nnUNet_predict
    simp [h]
  have hmain : main_run outputFiles exitCode args
      = ([Stage.cliValidation, Stage.inference],
         Except.error (nnUNet_error_msg args.output args.input)) := by
    unfold main_run
    rw [hrun]
    rfl
  have hfst : (main_run outputFiles exitCode args).1
      = [Stage.cliValidation, Stage.inference] := by
    rw [hmain]
  refine ⟨hmain, ?_, ?_, ?_, ?_, ?_, ?_, ?_⟩
  · exact ⟨"Error: Output segmentation file not created at the path below during nnUNet_predict run.\n",
      "\n\nFor your input files at the path below, check their filenames and visually inspect them if needed.\n"
        ++ args.input ++ "\n\n",
      by simp only [nnUNet_error_msg, strAppend_assoc]⟩
  · exact ⟨"Error: Output segmentation file not created at the path below during nnUNet_predict run.\n"
        ++ args.output
        ++ "\n\nFor your input files at the path below, check their filenames and visually inspect them if needed.\n",
      "\n\n", rfl⟩
  all_goals rw [hfst]; decide

/-- C3 witness: a concrete run whose output directory holds only log.txt
aborts with the diagnostic naming /out and /in, and executes no postBIBSnet
stage. -/
theorem C3_abort_on_missing_inference_output_witness :
    main_run ["log.txt"] 0 ⟨"/in", "/out", "nnUNet_predict", 512, "3d_fullres"⟩
      = ([Stage.cliValidation, Stage.inference],
         Except.error (nnUNet_error_msg "/out" "/in"))
    ∧ (∃ a b, nnUNet_error_msg "/out" "/in" = a ++ "/out" ++ b)
    ∧ (∃ a b, nnUNet_error_msg "/out" "/in" = a ++ "/in" ++ b) := by
  have h := C3_abort_on_missing_inference_output ["log.txt"] 0
    ⟨"/in", "/out", "nnUNet_predict", 512, "3d_fullres"⟩ (by decide)
  exact ⟨h.1, h.2.1, h.2.2.1⟩

/-- C5 counterexample: the entry point main does not perform the averaging
stage, nor any postBIBSnet stage: its stage trace is only CLI validation
followed by inference, so the claimed full stage sequence is not executed on
every invocation of the entry point. -/
theorem C5_entrypoint_skips_pipeline_stages_counterexample :
    Stage.averaging ∉ main_stages ∧ Stage.cropping ∉ main_stages
    ∧ Stage.leftRight ∉ main_stages ∧ Stage.chirality ∉ main_stages := by
  decide

/-- C5 amended: main executes only CLI validation followed by external
inference; the order averaging, cropping, then the registration variant
selected by modality availability is implemented inside run_preBIBSnet, and
the order left/right disambiguation, chirality correction, native-space
reversion, mask derivation, derivatives assembly inside run_postBIBSnet, but
main never invokes either function. -/
theorem C5_stage_orders :
    main_stages = [Stage.cliValidation, Stage.inference]
    ∧ preBIBSnet_stages true true
      = [Stage.averaging, Stage.cropping, Stage.registrationDual]
    ∧ preBIBSnet_stages true false
      = [Stage.averaging, Stage.cropping, Stage.registrationSingle]
    ∧ preBIBSnet_stages false true
      = [Stage.averaging, Stage.cropping, Stage.registrationSingle]
    ∧ postBIBSnet_stages 1
      = [Stage.leftRight, Stage.chirality, Stage.nativeReversion,
         Stage.maskDerivation, Stage.derivatives]
    ∧ postBIBSnet_stages 2
      = [Stage.leftRight, Stage.chirality, Stage.nativeReversion,
         Stage.maskDerivation, Stage.derivatives, Stage.nativeReversion,
         Stage.maskDerivation, Stage.derivatives]
    ∧ (∀ n, Stage.averaging ∉ postBIBSnet_stages n) := by
  refine ⟨rfl, rfl, rfl, rfl, rfl, rfl, ?_⟩
  intro n
  simp only [postBIBSnet_stages, List.mem_append, List.mem_flatten]
  rintro (h | ⟨l, hl, hm⟩)
  · exact absurd h (by decide)
  · rcases List.eq_of_mem_replicate hl with rfl
    exact absurd hm (by decide)

/-- C6 counterexample: with the overwrite flag set and no prior destination
file, the dataset-description copy step does not succeed: the unconditional
os.remove raises FileNotFoundError, refuting that the copy succeeds whether or
not a prior destination file existed. -/
theorem C6_overwrite_without_prior_file_fails_counterexample :
    copy_dataset_description true false
      = Except.error os_remove_missing_error := by
  rfl

/-- C6 amended: with overwrite unset the copy is skipped when the destination
exists and performed when it does not; with overwrite set and an existing
destination the stale file is removed and the copy succeeds; with overwrite
set and no existing destination the unconditional remove fails the step with
FileNotFoundError. -/
theorem C6_dataset_description_copy_cases :
    copy_dataset_description false true = Except.ok CopyOutcome.skipped
    ∧ copy_dataset_description false false = Except.ok CopyOutcome.copied
    ∧ copy_dataset_description true true = Except.ok CopyOutcome.copied
    ∧ copy_dataset_description true false
      = Except.error os_remove_missing_error := by
  exact ⟨rfl, rfl, rfl, rfl⟩

/-- Helper: evaluation of validate_cli_args for a task expecting both
modalities: only the match count against the two-slot pattern is checked. -/
theorem validate_cli_args_dual_eq (task : Nat) (inputDir : String)
    (dirFiles : List String) :
    validate_cli_args true true task inputDir dirFiles
      = if (dirFiles.filter matches_two_slot).length < 2
        then Except.error (missing_file_err_msg task
            (img_glob_path inputDir "0" ++ "\n" ++ img_glob_path inputDir "1"))
        else Except.ok () := by
  simp only [validate_cli_args]
  norm_num

/-- Helper: evaluation of validate_cli_args for a task expecting exactly one
modality: the check is that some file matches the two-slot pattern and the
first such file passes the slot-0 test. -/
theorem validate_cli_args_single_eq (task : Nat) (inputDir : String)
    (dirFiles : List String) :
    validate_cli_args true false task inputDir dirFiles
      = if (dirFiles.filter matches_two_slot).length < 1
            ∨ fnmatch_slot0 ((dirFiles.filter matches_two_slot).headD "") = false
        then Except.error (missing_file_err_msg task (img_glob_path inputDir "0"))
        else Except.ok () := by
  simp only [validate_cli_args]
  norm_num

/-- C7 counterexample: for a task requiring both modalities, an input
directory holding two files that match the two-slot pattern but neither
required slot pattern (no name ends in the slot-0 or slot-1 suffix) is
accepted by validation, so the absence of a required modality file does not
always make validation fail. -/
theorem C7_missing_required_file_accepted_counterexample :
    validate_cli_args true true 512 "/input"
        ["a_0002.nii.gz", "b_0003.nii.gz"] = Except.ok ()
    ∧ (["a_0002.nii.gz", "b_0003.nii.gz"].filter
        (fun n => strEnds n "_0000.nii.gz" || strEnds n "_0001.nii.gz")) = [] := by
  exact ⟨rfl, rfl⟩

/-- C7 amended: validation fails for a dual-modality task exactly when fewer
than two files match the two-slot glob pattern, and for a single-modality task
exactly when no file matches or the first match fails the slot-0 test; the
absence of a required file is therefore undetected whenever other two-slot
matches make up the count. When validation fails, the error message names the
slot-0 glob path for a single-modality task and both the slot-0 and slot-1
glob paths for a dual-modality task, and no external tool has run. -/
theorem C7_validation_failure_conditions_and_messages (task : Nat)
    (inputDir : String) (dirFiles : List String) :
    (validate_cli_args true true task inputDir dirFiles = Except.ok ()
       ↔ 2 ≤ (dirFiles.filter matches_two_slot).length)
    ∧ ((dirFiles.filter matches_two_slot).length < 2 →
        validate_cli_args true true task inputDir dirFiles
          = Except.error (missing_file_err_msg task
              (img_glob_path inputDir "0" ++ "\n" ++ img_glob_path inputDir "1")))
    ∧ (∃ a b, missing_file_err_msg task
          (img_glob_path inputDir "0" ++ "\n" ++ img_glob_path inputDir "1")
        = a ++ img_glob_path inputDir "0" ++ b)
    ∧ (∃ a b, missing_file_err_msg task
          (img_glob_path inputDir "0" ++ "\n" ++ img_glob_path inputDir "1")
        = a ++ img_glob_path inputDir "1" ++ b)
    ∧ (((dirFiles.filter matches_two_slot) = []
          ∨ fnmatch_slot0 ((dirFiles.filter matches_two_slot).headD "") = false) →
        validate_cli_args true false task inputDir dirFiles
          = Except.error (missing_file_err_msg task (img_glob_path inputDir "0"))) := by
  refine ⟨?_, ?_, ?_, ?_, ?_⟩
  · rw [validate_cli_args_dual_eq]
    split_ifs with h1
    · simp only [reduceCtorEq, false_iff]
      omega
    · simp only [true_iff]
      omega
  · intro hlt
    rw [validate_cli_args_dual_eq, if_pos hlt]
  · exact ⟨"BIBSnet task " ++ toString task
        ++ " requires image file(s) at the path(s) below, and at least 1 is missing. Either save the image file(s) there or try a different task.\n",
      "\n" ++ img_glob_path inputDir "1",
      by simp only [missing_file_err_msg, strAppend_assoc]⟩
  · exact ⟨"BIBSnet task " ++ toString task
        ++ " requires image file(s) at the path(s) below, and at least 1 is missing. Either save the image file(s) there or try a different task.\n"
        ++ img_glob_path inputDir "0" ++ "\n",
      "",
      by simp only [missing_file_err_msg, strAppend_assoc, String.append_empty]⟩
  · intro hc
    have hcond : (dirFiles.filter matches_two_slot).length < 1
        ∨ fnmatch_slot0 ((dirFiles.filter matches_two_slot).headD "") = false := by
      rcases hc with hc | hc
      · exact Or.inl (by simp [hc])
      · exact Or.inr hc
    rw [validate_cli_args_single_eq, if_pos hcond]

/-- C7 amended witness: for an empty input directory, a dual-modality task is
rejected with the message naming both slot glob paths, and a single-modality
task is rejected with the message naming the slot-0 glob path. -/
theorem C7_validation_failure_witness :
    validate_cli_args true true 512 "/in" []
      = Except.error (missing_file_err_msg 512
          (img_glob_path "/in" "0" ++ "\n" ++ img_glob_path "/in" "1"))
    ∧ validate_cli_args true false 512 "/in" []
      = Except.error (missing_file_err_msg 512 (img_glob_path "/in" "0")) := by
  have h := C7_validation_failure_conditions_and_messages 512 "/in" []
  exact ⟨h.2.1 (by decide), h.2.2.2.2 (Or.inl (by decide))⟩

/-- C8: on a successful run of the postBIBSnet tail, the set of paths removed
by the cleanup is nonempty exactly when the working directory is the default
scratch path /tmp/cabinet; a working directory at any other path is left
untouched, and when removal happens it removes only the working directory. -/
theorem C8_workdir_removed_iff_default_scratch
    (overwrite destExists : Bool) (work_dir : String)
    (oc : CopyOutcome) (removed : List String)
    (h : run_postBIBSnet_tail overwrite destExists work_dir
          = Except.ok (oc, removed)) :
    (removed ≠ [] ↔ work_dir = "/tmp/cabinet")
    ∧ (work_dir ≠ "/tmp/cabinet" → removed = [])
    ∧ (removed ≠ [] → removed = [work_dir]) := by
  have hrem : removed
      = if work_dir = "/tmp/cabinet" then [work_dir] else [] := by
    cases hc : copy_dataset_description overwrite destExists with
    | error e =>
      unfold run_postBIBSnet_tail at h
      rw [hc] at h
      simp [Except.bind] at h
    | ok v =>
      unfold run_postBIBSnet_tail at h
      rw [hc] at h
      simp only [bind, Except.bind, pure, Except.pure, Except.ok.injEq,
        Prod.mk.injEq] at h
      exact h.2.symm
  by_cases hw : work_dir = "/tmp/cabinet"
  · rw [hrem, if_pos hw]
    refine ⟨by simp [hw], fun hne => absurd hw hne, fun _ => rfl⟩
  · rw [hrem, if_neg hw]
    exact ⟨by simp [hw], fun _ => rfl, fun hne => absurd rfl hne⟩

/-- C8 witness: a concrete successful run with the working directory at the
default scratch path removes exactly that directory. -/
theorem C8_workdir_removed_witness :
    ((["/tmp/cabinet"] : List String) ≠ []
        ↔ ("/tmp/cabinet" : String) = "/tmp/cabinet")
    ∧ (("/tmp/cabinet" : String) ≠ "/tmp/cabinet"
        → (["/tmp/cabinet"] : List String) = [])
    ∧ ((["/tmp/cabinet"] : List String) ≠ []
        → (["/tmp/cabinet"] : List String) = ["/tmp/cabinet"]) :=
  C8_workdir_removed_iff_default_scratch false true "/tmp/cabinet"
    CopyOutcome.skipped ["/tmp/cabinet"] rfl

/-- C9: for a task requiring exactly one modality, validation accepts the
input directory exactly when the first file matching the two-slot pattern
also matches the slot-0 pattern; the T2w-only variant takes the same code
path, and a directory whose only two-slot match ends in the slot-1 suffix is
rejected with the missing-file error naming the slot-0 glob path. -/
theorem C9_single_modality_first_match_must_be_slot0 (task : Nat)
    (inputDir : String) (dirFiles : List String) :
    (validate_cli_args true false task inputDir dirFiles = Except.ok ()
       ↔ ∃ f, (dirFiles.filter matches_two_slot).head? = some f
           ∧ fnmatch_slot0 f = true)
    ∧ validate_cli_args false true task inputDir dirFiles
      = validate_cli_args true false task inputDir dirFiles
    ∧ validate_cli_args true false task inputDir ["sub-01_ses-A_0001.nii.gz"]
      = Except.error (missing_file_err_msg task (img_glob_path inputDir "0")) := by
  refine ⟨?_, rfl, rfl⟩
  rcases hf : dirFiles.filter matches_two_slot with _ | ⟨a, l⟩
  · simp [validate_cli_args, hf]
  · cases hs : fnmatch_slot0 a
    · simp [validate_cli_args, hf, hs]
    · simp [validate_cli_args, hf, hs]

/-- C10: the whole-number validator accepts zero, returning 0 for the input
string 0, and errors with the not-a-positive-integer message exactly when the
input fails to parse as an integer or parses to a negative integer; it
returns a value exactly when the input parses to that nonnegative integer. -/
theorem C10_valid_whole_number_accepts_zero :
    valid_whole_number "0" = Except.ok 0
    ∧ (∀ s : String,
        valid_whole_number s
            = Except.error (s ++ " is not a positive integer")
          ↔ (pyInt s = none ∨ ∃ n : Int, pyInt s = some n ∧ n < 0))
    ∧ (∀ (s : String) (n : Int),
        valid_whole_number s = Except.ok n ↔ pyInt s = some n ∧ 0 ≤ n) := by
  refine ⟨rfl, ?_, ?_⟩
  · intro s
    cases h : pyInt s with
    | none => simp [valid_whole_number, h]
    | some m =>
      simp only [valid_whole_number, h, reduceCtorEq, false_or,
        Option.some.injEq]
      split_ifs with hm
      · simp only [reduceCtorEq, false_iff]
        rintro ⟨k, rfl, hk⟩
        omega
      · simp only [Except.error.injEq, true_iff]
        exact ⟨m, rfl, by omega⟩
  · intro s n
    cases h : pyInt s with
    | none => simp [valid_whole_number, h]
    | some m =>
      simp only [valid_whole_number, h, Option.some.injEq]
      split_ifs with hm
      · simp only [Except.ok.injEq]
        constructor
        · rintro rfl
          exact ⟨rfl, hm⟩
        · rintro ⟨rfl, _⟩
          rfl
      · simp only [reduceCtorEq, false_iff]
        rintro ⟨rfl, hn⟩
        omega

end BIBSnet
